import Mathlib

/-!
Verification development for the go-sdk-bitpin client library.

Shallow embedding of the repository's core: the token codec (utils JWT),
the query encoder (utils.StructToURLParams), the error normalizer
(parseErrorResponse), the credential state (Client, assertAuth), the auth
lifecycle manager (handleAutoRefresh, Authenticate, RefreshAccessToken)
and the request pipeline (Request, ApiRequest, NewClient).

Machine integers are modeled as Int (Go int64 arithmetic in this code never
approaches overflow in the claims' domain: Unix timestamps and HTTP status
codes). Wall-clock time is modeled at whole-second granularity, matching the
source's use of time.Unix() values. Network dispatch and JWT decoding are
modeled as oracles supplied in an environment record, since they depend on
external I/O and an external JWT library; every claim quantifies over the
oracle where the source code does not constrain it.
-/

namespace Bitpin

/-! ### Token codec (source: utils, JWT struct and its methods) -/

/-- JWT mirrors the utils.JWT struct: token type, expiry (Unix seconds),
token id, user id, allow-listed IPs and API credential id. -/
structure JWT where
  tokenType : String
  exp : Int
  jti : String
  userId : Int
  ip : List String
  apiCredentialId : Int
deriving Repr, DecidableEq

/-- Source: func (j JWT) IsExpired() bool: j.Exp < int(time.Now().Unix()).
The current wall clock (Unix seconds) is passed explicitly. -/
def JWT.IsExpired (j : JWT) (now : Int) : Bool :=
  j.exp < now

/-- Source: func (j JWT) IsExpiredIn(t time.Duration) bool:
j.Exp < int(time.Now().Add(t).Unix()). Modeled at whole-second granularity
(the duration t is given in seconds), exact whenever t is a whole number of
seconds. -/
def JWT.IsExpiredIn (j : JWT) (now : Int) (t : Int) : Bool :=
  j.exp < now + t

/-! ### JSON value model (for encoding/json behaviour used by the SDK) -/

/-- A parsed JSON document. Numbers are modeled as integers: no claim
involves a non-integer JSON number. -/
inductive JsonVal where
  | null
  | bool (b : Bool)
  | num (n : Int)
  | str (s : String)
  | arr (elems : List JsonVal)
  | obj (fields : List (String × JsonVal))
deriving Repr

/-- A raw HTTP body: the verbatim byte string together with its JSON parse
result (none when the bytes are not valid JSON, e.g. "oops"). -/
structure Body where
  raw : String
  json : Option JsonVal
deriving Repr

/-- encoding/json: unmarshal a JSON value into a Go string. A JSON string
yields itself; JSON null is a no-op that leaves the zero value "". -/
def unmarshalString : JsonVal → Option String
  | .str s => some s
  | .null => some ""
  | _ => none

/-- encoding/json: unmarshal into []string. null yields the nil slice;
an array requires every element to unmarshal as a string. -/
def unmarshalStringList : JsonVal → Option (List String)
  | .null => some []
  | .arr xs => xs.mapM unmarshalString
  | _ => none

/-- Insert with Go-map semantics: a repeated key keeps its first position
but the last value wins. -/
def upsert {α : Type} : List (String × α) → String → α → List (String × α)
  | [], k, v => [(k, v)]
  | (k', v') :: rest, k, v =>
      if k' = k then (k', v) :: rest else (k', v') :: upsert rest k v

/-- encoding/json: unmarshal into map[string][]string. The top level must be
an object (or null, leaving the nil map); every value must unmarshal as
[]string. -/
def unmarshalMapStringListString : JsonVal → Option (List (String × List String))
  | .null => some []
  | .obj fields =>
      fields.foldlM (fun acc p => do
        let l ← unmarshalStringList p.2
        pure (upsert acc p.1 l)) []
  | _ => none

/-- encoding/json: unmarshal into map[string]string. -/
def unmarshalMapStringString : JsonVal → Option (List (String × String))
  | .null => some []
  | .obj fields =>
      fields.foldlM (fun acc p => do
        let s ← unmarshalString p.2
        pure (upsert acc p.1 s)) []
  | _ => none

/-- The anonymous struct in parseErrorResponse: Detail string, Code string,
Messages map[string]string (json tags detail, code, messages). -/
structure ErrResponseShape where
  detail : String
  code : String
  messages : List (String × String)
deriving Repr

/-- encoding/json: unmarshal into the ErrResponseShape struct. Unknown
object keys are ignored; a known key whose value has the wrong type fails
the whole unmarshal; a repeated key keeps the last value. Key matching is
modeled as exact (the claims only use exactly-tagged keys). -/
def unmarshalErrResponseShape : JsonVal → Option ErrResponseShape
  | .null => some ⟨"", "", []⟩
  | .obj fields =>
      fields.foldlM (fun acc p =>
        if p.1 = "detail" then
          (unmarshalString p.2).map (fun s => { acc with detail := s })
        else if p.1 = "code" then
          (unmarshalString p.2).map (fun s => { acc with code := s })
        else if p.1 = "messages" then
          (unmarshalMapStringString p.2).map (fun m => { acc with messages := m })
        else some acc) ⟨"", "", []⟩
  | _ => none

/-! ### Error normalizer (source: parseErrorResponse, formatErrorDetails) -/

/-- APIError mirrors the APIError struct built by parseErrorResponse:
the embedded GoBitpinError's Message, plus StatusCode and Details. -/
structure APIError where
  message : String
  statusCode : Int
  details : List (String × List String)
deriving Repr, DecidableEq

/-- Source: formatErrorDetails. Builds "field: first-message" entries joined
with "; ", skipping fields with no messages. Go map iteration order is
unspecified; the model iterates in entry order. -/
def formatErrorDetails (details : List (String × List String)) : String :=
  details.foldl (fun msg p =>
    match p.2 with
    | [] => msg
    | e :: _ => (if msg = "" then msg else msg ++ "; ") ++ p.1 ++ ": " ++ e) ""

/-- The "API error (status %d): %s" message format. -/
def apiErrorMessage (statusCode : Int) (s : String) : String :=
  "API error (status " ++ toString statusCode ++ "): " ++ s

/-- Convert the third shape to Details exactly as the source does: "detail"
first when non-empty, then "code" when non-empty, then the messages map. -/
def errResponseDetails (r : ErrResponseShape) : List (String × List String) :=
  let d0 : List (String × List String) :=
    if r.detail ≠ "" then [("detail", [r.detail])] else []
  let d1 := if r.code ≠ "" then upsert d0 "code" [r.code] else d0
  r.messages.foldl (fun acc p => upsert acc p.1 [p.2]) d1

/-- Source: parseErrorResponse(statusCode int, respBody []byte) *APIError.
Tries map[string][]string, then map[string]string, then the
detail/code/messages struct, then falls back to Details = raw body. -/
def parseErrorResponse (statusCode : Int) (respBody : Body) : APIError :=
  match respBody.json.bind unmarshalMapStringListString with
  | some details =>
      ⟨apiErrorMessage statusCode (formatErrorDetails details), statusCode, details⟩
  | none =>
  match respBody.json.bind unmarshalMapStringString with
  | some simpleDetails =>
      let details := simpleDetails.foldl (fun acc p => upsert acc p.1 [p.2]) []
      ⟨apiErrorMessage statusCode (formatErrorDetails details), statusCode, details⟩
  | none =>
  match respBody.json.bind unmarshalErrResponseShape with
  | some errResp =>
      let details := errResponseDetails errResp
      ⟨apiErrorMessage statusCode (formatErrorDetails details), statusCode, details⟩
  | none =>
      ⟨apiErrorMessage statusCode respBody.raw, statusCode,
        [("raw", [respBody.raw])]⟩

/-! ### Query encoder (source: utils.StructToURLParams) -/

/-- The reflected value of a struct field, covering the kinds the encoder's
switch handles and that appear in this SDK's parameter structs: strings
(the switch's default case), integers, booleans, and slices. A Go slice
distinguishes nil from empty, and reflect.Value.IsZero is true only for the
nil slice, so the nil flag is kept. Float fields are not modeled (floating
point; no parameter struct in the claims carries one). -/
inductive GoValue where
  | vStr (s : String)
  | vInt (i : Int)
  | vBool (b : Bool)
  | vSlice (isNil : Bool) (elems : List GoValue)
deriving Repr

/-- Source: reflect.Value.IsZero for the modeled kinds: empty string, zero
int, false bool, nil slice. -/
def GoValue.IsZero : GoValue → Bool
  | .vStr s => s = ""
  | .vInt i => i = 0
  | .vBool b => b = false
  | .vSlice isNil _ => isNil

mutual

/-- fmt.Sprintf("%v", x) for the modeled kinds. -/
def sprintfV : GoValue → String
  | .vStr s => s
  | .vInt i => toString i
  | .vBool b => if b then "true" else "false"
  | .vSlice _ elems => "[" ++ sprintfVList elems ++ "]"

def sprintfVList : List GoValue → String
  | [] => ""
  | [x] => sprintfV x
  | x :: xs => sprintfV x ++ " " ++ sprintfVList xs

end

/-- One struct field as the encoder sees it: the raw result of
field.Tag.Get("json") ("" when the tag is absent) and the field value. -/
structure StructField where
  jsonTag : String
  value : GoValue
deriving Repr

/-- net/url Values.Add: appends the value to the key's slice, keys kept in
first-insertion order. -/
def valuesAdd (vs : List (String × List String)) (key val : String) :
    List (String × List String) :=
  match vs with
  | [] => [(key, [val])]
  | (k, l) :: rest =>
      if k = key then (k, l ++ [val]) :: rest else (k, l) :: valuesAdd rest key val

/-- UTF-8 bytes of a character (for percent-encoding). -/
def utf8Bytes (c : Char) : List Nat :=
  let n := c.toNat
  if n < 0x80 then [n]
  else if n < 0x800 then [0xC0 + n / 0x40, 0x80 + n % 0x40]
  else if n < 0x10000 then
    [0xE0 + n / 0x1000, 0x80 + (n / 0x40) % 0x40, 0x80 + n % 0x40]
  else
    [0xF0 + n / 0x40000, 0x80 + (n / 0x1000) % 0x40,
      0x80 + (n / 0x40) % 0x40, 0x80 + n % 0x40]

/-- Uppercase hex digits. -/
def hexDigits : List Char :=
  ['0', '1', '2', '3', '4', '5', '6', '7', '8', '9', 'A', 'B', 'C', 'D', 'E', 'F']

/-- "%XX" form of one byte. -/
def byteHex (b : Nat) : String :=
  "%" ++ String.singleton (hexDigits.getD (b / 16) '0')
      ++ String.singleton (hexDigits.getD (b % 16) '0')

/-- net/url QueryEscape of one character: alphanumerics and -_.~ pass
through, space becomes '+', everything else is %XX per UTF-8 byte. -/
def escapeChar (c : Char) : String :=
  if c.isAlphanum ∨ c = '-' ∨ c = '_' ∨ c = '.' ∨ c = '~' then String.singleton c
  else if c = ' ' then "+"
  else String.join ((utf8Bytes c).map byteHex)

/-- net/url QueryEscape. -/
def queryEscape (s : String) : String :=
  String.join (s.data.map escapeChar)

/-- Lexicographic order on character lists (Go's byte order coincides with
codepoint order for valid UTF-8). -/
def charListLe : List Char → List Char → Bool
  | [], _ => true
  | _ :: _, [] => false
  | a :: as, b :: bs => if a < b then true else if b < a then false else charListLe as bs

/-- Insertion into a sorted string list. -/
def insertSorted (x : String) : List String → List String
  | [] => [x]
  | y :: ys => if charListLe x.data y.data then x :: y :: ys else y :: insertSorted x ys

/-- Sort a list of strings (net/url Values.Encode sorts keys). -/
def sortStrings (l : List String) : List String :=
  l.foldr insertSorted []

/-- net/url Values.Encode: keys in sorted order, each value as
escape(k)=escape(v), pairs joined with &. -/
def valuesEncode (vs : List (String × List String)) : String :=
  (sortStrings (vs.map Prod.fst)).foldl (fun buf k =>
    ((vs.lookup k).getD []).foldl (fun buf v =>
      (if buf = "" then buf else buf ++ "&") ++ queryEscape k ++ "=" ++ queryEscape v)
      buf) ""

/-- Source: utils.StructToURLParams. The input is a struct (a field list) or
not a struct (none), in which case the function fails fast. For each field
in declaration order: skip when the json tag is "" or "-"; skip when
reflect.Value.IsZero holds; otherwise dispatch on the kind exactly as the
source's switch does (slices expand per element; the bool case calls
Values.Add unconditionally; strings land in the default case). -/
def StructToURLParams (inputStruct : Option (List StructField)) :
    Except String String :=
  match inputStruct with
  | none => .error "input must be a struct"
  | some fields =>
      let values := fields.foldl (fun values f =>
        let key := f.jsonTag
        if key = "" ∨ key = "-" then values
        else if f.value.IsZero then values
        else
          match f.value with
          | .vSlice _ elems =>
              if elems.length > 0 then
                elems.foldl (fun vs e => valuesAdd vs key (sprintfV e)) values
              else values
          | .vInt i =>
              if i ≠ 0 then valuesAdd values key (toString i) else values
          | .vBool b =>
              valuesAdd values key (if b then "true" else "false")
          | .vStr s =>
              if s ≠ "" then valuesAdd values key s else values) []
      .ok (valuesEncode values)

/-! ### Credential state and errors (source: Client, ClientOptions, errors) -/

/-- Constants from the source. -/
def BaseUrl : String := "https://api.bitpin.ir"

def Version : String := "v1"

/-- ClientOptions mirrors the source struct (HttpClient and Timeout are not
modeled: they only configure the transport, which is an oracle here). -/
structure ClientOptions where
  baseUrl : String
  accessToken : String
  refreshToken : String
  apiKey : String
  secretKey : String
  autoAuth : Bool
  autoRefresh : Bool
deriving Repr, DecidableEq

/-- Client mirrors the source struct (HttpClient not modeled). -/
structure Client where
  baseUrl : String
  accessToken : String
  refreshToken : String
  apiKey : String
  secretKey : String
  autoRefresh : Bool
deriving Repr, DecidableEq

/-- The SDK's error values: plain wrapped library errors, GoBitpinError
(message + optional cause), RequestError (adds the operation), and APIError
from the normalizer. -/
inductive BErr where
  | plain (msg : String)
  | go (message : String) (err : Option BErr)
  | req (message : String) (err : Option BErr) (operation : String)
  | api (e : APIError)
deriving Repr

/-- The GoBitpinError produced when re-authentication is required but a
credential is missing (also returned by Authenticate on empty arguments). -/
def missingCredentialsError : BErr :=
  .go "API key and/or secret key are empty" none

/-- Source: assertAuth(client *Client) error. -/
def assertAuth (client : Client) : Except BErr Unit :=
  if client.accessToken = "" then .error (.go "access token is empty" none)
  else if client.refreshToken = "" then .error (.go "refresh token is empty" none)
  else .ok ()

/-- Source: createApiURI(endpoint, version): defaults the version and glues
BaseUrl, "/api/", version and endpoint. -/
def createApiURI (c : Client) (endpoint version : String) : String :=
  let v := if version = "" then Version else version
  c.baseUrl ++ "/api/" ++ v ++ endpoint

/-! ### Request pipeline (source: Request, ApiRequest) -/

/-- An outbound HTTP request as the pipeline builds it. -/
structure HttpReq where
  method : String
  url : String
  contentType : String
  authorization : Option String
  body : String
deriving Repr, DecidableEq

/-- An HTTP response: status code and the io.ReadAll outcome for its body. -/
structure HttpResp where
  statusCode : Int
  bodyResult : Except String Body
deriving Repr

/-- Observable effects of a pipeline run, in order: entry into
handleAutoRefresh, attaching the Authorization header, dispatching a
request over the network, and attempting to json-decode a response into the
caller's result. -/
inductive Event where
  | ensureFresh
  | authenticateCall
  | attachAuthHeader (token : String)
  | httpCall (req : HttpReq)
  | decodeAttempt
deriving Repr, DecidableEq

/-- The environment: the JWT decoding oracle (utils.DecodeJWT parses via an
external library), the current wall clock in Unix seconds, and the HTTP
transport oracle (HttpClient.Do combined with reading the body). -/
structure Env where
  decodeJWT : String → Except String JWT
  now : Int
  dispatch : HttpReq → Except String HttpResp

/-- AuthenticationResponse mirrors types.AuthenticationResponse
(json tags refresh, access). -/
structure AuthenticationResponse where
  refresh : String
  access : String
deriving Repr, DecidableEq

/-- RefreshTokenResponse mirrors types.RefreshTokenResponse (json tag access). -/
structure RefreshTokenResponse where
  access : String
deriving Repr, DecidableEq

/-- The closed set of response payloads the modeled pipeline decodes into.
Endpoint payloads other than the two token responses are irrelevant to the
pipeline's own behaviour and collapse to one constructor. -/
inductive Decoded where
  | auth (r : AuthenticationResponse)
  | refreshTok (r : RefreshTokenResponse)
  | other
deriving Repr, DecidableEq

/-- encoding/json: unmarshal a body into AuthenticationResponse (unknown
keys ignored, wrong-typed known keys fail, null leaves the zero value). -/
def unmarshalAuthResponse (b : Body) : Except String Decoded :=
  match b.json with
  | none => .error "invalid JSON"
  | some v =>
      match v with
      | .null => .ok (.auth ⟨"", ""⟩)
      | .obj fields =>
          match fields.foldlM (fun (acc : AuthenticationResponse) p =>
              if p.1 = "refresh" then
                (unmarshalString p.2).map (fun s => { acc with refresh := s })
              else if p.1 = "access" then
                (unmarshalString p.2).map (fun s => { acc with access := s })
              else some acc) ⟨"", ""⟩ with
          | some a => .ok (.auth a)
          | none => .error "cannot unmarshal"
      | _ => .error "cannot unmarshal"

/-- encoding/json: unmarshal a body into RefreshTokenResponse. -/
def unmarshalRefreshResponse (b : Body) : Except String Decoded :=
  match b.json with
  | none => .error "invalid JSON"
  | some v =>
      match v with
      | .null => .ok (.refreshTok ⟨""⟩)
      | .obj fields =>
          match fields.foldlM (fun (acc : RefreshTokenResponse) p =>
              if p.1 = "access" then
                (unmarshalString p.2).map (fun s => { acc with access := s })
              else some acc) ⟨""⟩ with
          | some a => .ok (.refreshTok a)
          | none => .error "cannot unmarshal"
      | _ => .error "cannot unmarshal"

/-- A non-nil Go request body as the pipeline sees it: its reflected struct
view (none when the value is not a struct, e.g. the map bodies of the auth
endpoints) and its json.Marshal outcome. -/
structure GoBody where
  fields : Option (List StructField)
  marshalled : Except String String
deriving Repr

/-- json.Marshal of a map[string]string: keys sorted, rendered as a JSON
object (string escaping not modeled; the claims' bodies need none). -/
def marshalStringMap (m : List (String × String)) : String :=
  "\x7b" ++ String.intercalate ","
    ((sortStrings (m.map Prod.fst)).map
      (fun k => "\"" ++ k ++ "\":\"" ++ ((m.lookup k).getD "") ++ "\""))
  ++ "\x7d"

/-- The body of a map[string]string request (not a struct, marshal always
succeeds). -/
def mapBody (m : List (String × String)) : GoBody :=
  ⟨none, .ok (marshalStringMap m)⟩

/-- Steps 1-2 of Request: for GET with a non-nil body, encode it with
StructToURLParams and append to the URL; for POST with a non-nil body, use
its json.Marshal outcome as the payload. Returns (final url, payload). -/
def prepare (method url : String) (body : Option GoBody) :
    Except BErr (String × String) :=
  if method = "GET" then
    match body with
    | some b =>
        match StructToURLParams b.fields with
        | .error e =>
            .error (.req "failed to convert struct to URL params" (some (.plain e))
              "preparing request parameters")
        | .ok urlParams => .ok (url ++ "?" ++ urlParams, "")
    | none => .ok (url, "")
  else if method = "POST" then
    match body with
    | some b =>
        match b.marshalled with
        | .error e =>
            .error (.req "failed to marshal request body" (some (.plain e))
              "preparing request body")
        | .ok s => .ok (url, s)
    | none => .ok (url, "")
  else .ok (url, "")

/-- The auth block of Request: when auth is requested, run
handleAutoRefresh (only if the client's AutoRefresh flag is set), then
assertAuth, then produce the Authorization header value from the (possibly
refreshed) access token. The lifecycle procedure is a parameter so the
pipeline can be defined before the lifecycle manager that is built on top
of it; the source's inner calls all pass auth = false and never reach it. -/
def authStage (ensure : Client → Env → Except BErr Unit × Client × List Event)
    (c : Client) (env : Env) (auth : Bool) :
    Except BErr (Option String) × Client × List Event :=
  if auth then
    match (if c.autoRefresh then ensure c env else (.ok (), c, [])) with
    | (.error e, c', tr) =>
        (.error (.go "failed to refresh authentication" (some e)), c', tr)
    | (.ok (), c', tr) =>
        match assertAuth c' with
        | .error e =>
            (.error (.go "authentication validation failed" (some e)), c', tr)
        | .ok () =>
            (.ok (some ("Bearer " ++ c'.accessToken)), c',
              tr ++ [.attachAuthHeader ("Bearer " ++ c'.accessToken)])
  else (.ok none, c, [])

/-- The http.Request the pipeline builds: method and final URL from
preparation, Content-Type always set, optional Authorization header, and
the payload bytes. -/
def mkReq (method finalUrl : String) (authHeader : Option String)
    (reqBody : String) : HttpReq :=
  ⟨method, finalUrl, "application/json", authHeader, reqBody⟩

/-- Source: func (c *Client) Request(method, url, auth, body, result),
parameterized by the lifecycle procedure used in the auth block. Returns
(outcome, value written into the caller's result, final client, events).
http.NewRequest's URL-parse failure is not modeled. -/
def requestWith (ensure : Client → Env → Except BErr Unit × Client × List Event)
    (c : Client) (env : Env) (method url : String) (auth : Bool)
    (body : Option GoBody) (result : Option (Body → Except String Decoded)) :
    Except BErr Unit × Option Decoded × Client × List Event :=
  match prepare method url body with
  | .error e => (.error e, none, c, [])
  | .ok (finalUrl, reqBody) =>
      match authStage ensure c env auth with
      | (.error e, c', tr) => (.error e, none, c', tr)
      | (.ok authHeader, c', tr) =>
          match env.dispatch (mkReq method finalUrl authHeader reqBody) with
          | .error e =>
              (.error (.req "failed to send request" (some (.plain e)) "sending request"),
                none, c', tr ++ [.httpCall (mkReq method finalUrl authHeader reqBody)])
          | .ok resp =>
              match resp.bodyResult with
              | .error e =>
                  (.error (.req "failed to read response body" (some (.plain e))
                      "reading response"), none, c',
                    tr ++ [.httpCall (mkReq method finalUrl authHeader reqBody)])
              | .ok respBody =>
                  if resp.statusCode < 200 ∨ 300 ≤ resp.statusCode then
                    (.error (.api (parseErrorResponse resp.statusCode respBody)),
                      none, c', tr ++ [.httpCall (mkReq method finalUrl authHeader reqBody)])
                  else
                    match result with
                    | none =>
                        (.ok (), none, c',
                          tr ++ [.httpCall (mkReq method finalUrl authHeader reqBody)])
                    | some dec =>
                        match dec respBody with
                        | .error e =>
                            (.error (.req "failed to unmarshal response"
                                (some (.plain e)) "parsing response"), none, c',
                              tr ++ [.httpCall (mkReq method finalUrl authHeader reqBody),
                                .decodeAttempt])
                        | .ok v =>
                            (.ok (), some v, c',
                              tr ++ [.httpCall (mkReq method finalUrl authHeader reqBody),
                                .decodeAttempt])

/-- A vacuous lifecycle procedure for the pipeline's internal calls, which
all pass auth = false and therefore never invoke it. -/
def noEnsure : Client → Env → Except BErr Unit × Client × List Event :=
  fun c _ => (.ok (), c, [])

/-- Sanity: with auth = false the lifecycle parameter is irrelevant, so the
layering of the embedding (inner calls via noEnsure) matches the source,
where every call routes through the one Request function. -/
theorem requestWith_auth_false
    (e₁ e₂ : Client → Env → Except BErr Unit × Client × List Event)
    (c : Client) (env : Env) (method url : String)
    (body : Option GoBody) (result : Option (Body → Except String Decoded)) :
    requestWith e₁ c env method url false body result =
      requestWith e₂ c env method url false body result := by
  simp [requestWith, authStage]

/-! ### Auth lifecycle manager (source: RefreshAccessToken, Authenticate,
handleAutoRefresh, NewClient) -/

/-- Source: func (c *Client) RefreshAccessToken() error. POSTs the current
refresh token to /usr/refresh_token/ (auth = false) and on success
overwrites the access token with the response's access field. The model
keeps Go's pointer-unmarshal semantics: refreshResponse starts as the zero
value and holds whatever the pipeline wrote into it. -/
def RefreshAccessToken (c : Client) (env : Env) :
    Except BErr Unit × Client × List Event :=
  let reqBody : List (String × String) := [("refresh", c.refreshToken)]
  match requestWith noEnsure c env "POST" (createApiURI c "/usr/refresh_token/" Version)
      false (some (mapBody reqBody)) (some unmarshalRefreshResponse) with
  | (.error e, _, c', tr) => (.error e, c', tr)
  | (.ok (), written, c', tr) =>
      let refreshResponse : RefreshTokenResponse :=
        match written with
        | some (.refreshTok r) => r
        | _ => ⟨""⟩
      (.ok (), { c' with accessToken := refreshResponse.access }, tr)

/-- Source: func (c *Client) Authenticate(apiKey, secretKey). Fails fast on
an empty credential; POSTs both keys to /usr/authenticate/ (auth = false);
on success overwrites both tokens from the response. The errors.As switch
in the source returns the error unchanged in every branch, so failures
propagate as-is. The leading authenticateCall event marks the invocation. -/
def Authenticate (c : Client) (env : Env) (apiKey secretKey : String) :
    Except BErr AuthenticationResponse × Client × List Event :=
  if apiKey = "" ∨ secretKey = "" then
    (.error missingCredentialsError, c, [.authenticateCall])
  else
    match requestWith noEnsure c env "POST" (createApiURI c "/usr/authenticate/" Version)
        false (some (mapBody [("api_key", apiKey), ("secret_key", secretKey)]))
        (some unmarshalAuthResponse) with
    | (.error e, _, c', tr) => (.error e, c', .authenticateCall :: tr)
    | (.ok (), written, c', tr) =>
        let authResponse : AuthenticationResponse :=
          match written with
          | some (.auth r) => r
          | _ => ⟨"", ""⟩
        (.ok authResponse,
          { c' with accessToken := authResponse.access,
                    refreshToken := authResponse.refresh }, .authenticateCall :: tr)

/-- The second block of handleAutoRefresh: when a refresh token is present,
decode it; if expired, require both API credentials (else the
missing-credentials error) and re-authenticate. -/
def handleAutoRefreshStep2 (c : Client) (env : Env) :
    Except BErr Unit × Client × List Event :=
  if c.refreshToken ≠ "" then
    match env.decodeJWT c.refreshToken with
    | .error e => (.error (.plain e), c, [])
    | .ok decoded =>
        if decoded.IsExpired env.now then
          if c.apiKey = "" ∨ c.secretKey = "" then
            (.error missingCredentialsError, c, [])
          else
            match Authenticate c env c.apiKey c.secretKey with
            | (.error e, c', tr) => (.error e, c', tr)
            | (.ok _, c', tr) => (.ok (), c', tr)
        else (.ok (), c, [])
  else (.ok (), c, [])

/-- The first block of handleAutoRefresh: when an access token is present,
decode it and, if expired, call RefreshAccessToken. -/
def handleAutoRefreshStep1 (c : Client) (env : Env) :
    Except BErr Unit × Client × List Event :=
  if c.accessToken ≠ "" then
    match env.decodeJWT c.accessToken with
    | .error e => (.error (.plain e), c, [])
    | .ok decoded =>
        if decoded.IsExpired env.now then RefreshAccessToken c env
        else (.ok (), c, [])
  else (.ok (), c, [])

/-- Source: func (c *Client) handleAutoRefresh() error (the spec's
ensureFresh): the access-token block, then the refresh-token block run on
the (possibly updated) client. The leading ensureFresh event marks the
invocation. -/
def handleAutoRefresh (c : Client) (env : Env) :
    Except BErr Unit × Client × List Event :=
  match handleAutoRefreshStep1 c env with
  | (.error e, c', tr) => (.error e, c', .ensureFresh :: tr)
  | (.ok (), c', tr) =>
      match handleAutoRefreshStep2 c' env with
      | (r, c'', tr₂) => (r, c'', .ensureFresh :: (tr ++ tr₂))

/-- Source: func (c *Client) Request(...): the public pipeline, whose auth
block uses handleAutoRefresh. -/
def Request (c : Client) (env : Env) (method url : String) (auth : Bool)
    (body : Option GoBody) (result : Option (Body → Except String Decoded)) :
    Except BErr Unit × Option Decoded × Client × List Event :=
  requestWith handleAutoRefresh c env method url auth body result

/-- Source: func (c *Client) ApiRequest(method, endpoint, version, auth,
body, result). -/
def ApiRequest (c : Client) (env : Env) (method endpoint version : String)
    (auth : Bool) (body : Option GoBody)
    (result : Option (Body → Except String Decoded)) :
    Except BErr Unit × Option Decoded × Client × List Event :=
  Request c env method (createApiURI c endpoint version) auth body result

/-- The Client value NewClient assembles from the options before running the
lifecycle steps: BaseUrl defaulted, tokens and credentials copied over
(opts.AutoAuth is copied nowhere — the Client struct has no such field). -/
def clientOfOptions (opts : ClientOptions) : Client :=
  { autoRefresh := opts.autoRefresh
    baseUrl := if opts.baseUrl ≠ "" then opts.baseUrl else BaseUrl
    accessToken := opts.accessToken
    refreshToken := opts.refreshToken
    apiKey := opts.apiKey
    secretKey := opts.secretKey }

/-- Source: func NewClient(opts ClientOptions) (*Client, error). Builds the
client from the options, always runs handleAutoRefresh, then authenticates
exactly when both API credentials are non-empty. -/
def NewClient (opts : ClientOptions) (env : Env) :
    Except BErr Client × List Event :=
  match handleAutoRefresh (clientOfOptions opts) env with
  | (.error e, _, tr) => (.error e, tr)
  | (.ok (), c₁, tr) =>
      if opts.apiKey ≠ "" ∧ opts.secretKey ≠ "" then
        match Authenticate c₁ env opts.apiKey opts.secretKey with
        | (.error e, _, tr₂) => (.error e, tr ++ tr₂)
        | (.ok _, c₂, tr₂) => (.ok c₂, tr ++ tr₂)
      else (.ok c₁, tr)

/-! ### Trace helpers -/

/-- Is the event a network dispatch? -/
def Event.isHttpCall : Event → Bool
  | .httpCall _ => true
  | _ => false

/-- Is the event an entry into handleAutoRefresh? -/
def Event.isEnsureFresh : Event → Bool
  | .ensureFresh => true
  | _ => false

/-- Is the event an Authorization-header attachment? -/
def Event.isAttachAuth : Event → Bool
  | .attachAuthHeader _ => true
  | _ => false

/-- Number of network dispatches in a trace. -/
def countHttpCalls (tr : List Event) : Nat :=
  (tr.filter Event.isHttpCall).length

/-- Number of handleAutoRefresh invocations in a trace. -/
def countEnsureFresh (tr : List Event) : Nat :=
  (tr.filter Event.isEnsureFresh).length

/-- Is the event an invocation of Authenticate? -/
def Event.isAuthenticateCall : Event → Bool
  | .authenticateCall => true
  | _ => false

/-- Number of Authenticate invocations in a trace. -/
def countAuthenticateCalls (tr : List Event) : Nat :=
  (tr.filter Event.isAuthenticateCall).length

/-! ### Helper lemmas about the pipeline's unauthenticated calls -/

/-- An unauthenticated pipeline call leaves the client unchanged and never
invokes the lifecycle manager or Authenticate. -/
theorem requestWith_false_spec
    (e : Client → Env → Except BErr Unit × Client × List Event)
    (c : Client) (env : Env) (m u : String) (b : Option GoBody)
    (r : Option (Body → Except String Decoded)) :
    (requestWith e c env m u false b r).2.2.1 = c ∧
    countEnsureFresh (requestWith e c env m u false b r).2.2.2 = 0 ∧
    countAuthenticateCalls (requestWith e c env m u false b r).2.2.2 = 0 := by
  have hA : authStage e c env false = (.ok none, c, []) := rfl
  unfold requestWith
  rw [hA]
  repeat' split
  all_goals first
    | rfl
    | simp_all [countEnsureFresh, countAuthenticateCalls, Event.isEnsureFresh,
        Event.isAuthenticateCall]

/-- When preparation succeeds, an unauthenticated pipeline call dispatches
exactly one request: the prepared one, with no Authorization header. -/
theorem requestWith_false_http
    (e : Client → Env → Except BErr Unit × Client × List Event)
    (c : Client) (env : Env) (m u : String) (b : Option GoBody)
    (r : Option (Body → Except String Decoded)) (p : String × String)
    (hp : prepare m u b = .ok p) :
    ((requestWith e c env m u false b r).2.2.2).filter Event.isHttpCall
      = [.httpCall ⟨m, p.1, "application/json", none, p.2⟩] := by
  have hA : authStage e c env false = (.ok none, c, []) := rfl
  unfold requestWith
  rw [hp, hA]
  repeat' split
  all_goals first
    | rfl
    | simp_all [Event.isHttpCall, mkReq]

/-- RefreshAccessToken changes at most the access token, issues exactly one
network call, and never invokes the lifecycle manager or Authenticate. -/
theorem RefreshAccessToken_spec (c : Client) (env : Env) :
    (RefreshAccessToken c env).2.1.baseUrl = c.baseUrl ∧
    (RefreshAccessToken c env).2.1.refreshToken = c.refreshToken ∧
    (RefreshAccessToken c env).2.1.apiKey = c.apiKey ∧
    (RefreshAccessToken c env).2.1.secretKey = c.secretKey ∧
    (RefreshAccessToken c env).2.1.autoRefresh = c.autoRefresh ∧
    countEnsureFresh (RefreshAccessToken c env).2.2 = 0 ∧
    countAuthenticateCalls (RefreshAccessToken c env).2.2 = 0 ∧
    countHttpCalls (RefreshAccessToken c env).2.2 = 1 := by
  have h1 := requestWith_false_spec noEnsure c env "POST"
    (createApiURI c "/usr/refresh_token/" Version)
    (some (mapBody [("refresh", c.refreshToken)])) (some unmarshalRefreshResponse)
  have h2 := requestWith_false_http noEnsure c env "POST"
    (createApiURI c "/usr/refresh_token/" Version)
    (some (mapBody [("refresh", c.refreshToken)])) (some unmarshalRefreshResponse)
    (createApiURI c "/usr/refresh_token/" Version,
      marshalStringMap [("refresh", c.refreshToken)]) rfl
  unfold RefreshAccessToken
  rcases hr : requestWith noEnsure c env "POST"
      (createApiURI c "/usr/refresh_token/" Version) false
      (some (mapBody [("refresh", c.refreshToken)]))
      (some unmarshalRefreshResponse) with ⟨res, written, c', tr⟩
  rw [hr] at h1 h2
  rcases res with e' | u' <;>
    simp_all [countHttpCalls]

/-- Authenticate preserves the base URL, the credentials and the
AutoRefresh flag, marks its own invocation exactly once, and never invokes
the lifecycle manager. -/
theorem Authenticate_spec (c : Client) (env : Env) (k s : String) :
    (Authenticate c env k s).2.1.baseUrl = c.baseUrl ∧
    (Authenticate c env k s).2.1.apiKey = c.apiKey ∧
    (Authenticate c env k s).2.1.secretKey = c.secretKey ∧
    (Authenticate c env k s).2.1.autoRefresh = c.autoRefresh ∧
    countEnsureFresh (Authenticate c env k s).2.2 = 0 ∧
    countAuthenticateCalls (Authenticate c env k s).2.2 = 1 := by
  have h1 := requestWith_false_spec noEnsure c env "POST"
    (createApiURI c "/usr/authenticate/" Version)
    (some (mapBody [("api_key", k), ("secret_key", s)])) (some unmarshalAuthResponse)
  unfold Authenticate
  by_cases hk : k = "" ∨ s = ""
  · simp_all [countEnsureFresh, countAuthenticateCalls, Event.isEnsureFresh,
      Event.isAuthenticateCall]
  · rcases hr : requestWith noEnsure c env "POST"
        (createApiURI c "/usr/authenticate/" Version) false
        (some (mapBody [("api_key", k), ("secret_key", s)]))
        (some unmarshalAuthResponse) with ⟨res, written, c', tr⟩
    rw [hr] at h1
    rcases res with e' | u' <;>
      simp_all [countEnsureFresh, countAuthenticateCalls, Event.isEnsureFresh,
        Event.isAuthenticateCall]

/-- The access-token block preserves everything except possibly the access
token and never invokes the lifecycle manager or Authenticate. -/
theorem handleAutoRefreshStep1_spec (c : Client) (env : Env) :
    (handleAutoRefreshStep1 c env).2.1.baseUrl = c.baseUrl ∧
    (handleAutoRefreshStep1 c env).2.1.refreshToken = c.refreshToken ∧
    (handleAutoRefreshStep1 c env).2.1.apiKey = c.apiKey ∧
    (handleAutoRefreshStep1 c env).2.1.secretKey = c.secretKey ∧
    (handleAutoRefreshStep1 c env).2.1.autoRefresh = c.autoRefresh ∧
    countEnsureFresh (handleAutoRefreshStep1 c env).2.2 = 0 ∧
    countAuthenticateCalls (handleAutoRefreshStep1 c env).2.2 = 0 := by
  have h1 := RefreshAccessToken_spec c env
  unfold handleAutoRefreshStep1
  repeat' split
  all_goals first
    | rfl
    | simp_all [countEnsureFresh, countAuthenticateCalls]

/-- The refresh-token block never invokes the lifecycle manager, and when
either API credential is empty it never invokes Authenticate. -/
theorem handleAutoRefreshStep2_spec (c : Client) (env : Env) :
    countEnsureFresh (handleAutoRefreshStep2 c env).2.2 = 0 ∧
    (c.apiKey = "" ∨ c.secretKey = "" →
      countAuthenticateCalls (handleAutoRefreshStep2 c env).2.2 = 0) := by
  have h1 := Authenticate_spec c env c.apiKey c.secretKey
  unfold handleAutoRefreshStep2
  repeat' split
  all_goals first
    | rfl
    | simp_all [countEnsureFresh, countAuthenticateCalls]

/-- On an authenticated call with the AutoRefresh flag cleared, the auth
block skips the lifecycle manager and fails at the gate when the gate
fails. -/
theorem authStage_true_noRefresh_err (c : Client) (env : Env) (e : BErr)
    (h : c.autoRefresh = false) (ha : assertAuth c = .error e) :
    authStage handleAutoRefresh c env true =
      (.error (.go "authentication validation failed" (some e)), c, []) := by
  unfold authStage
  rw [h]
  simp only [Bool.false_eq_true, reduceIte]
  rw [ha]

/-- On an authenticated call with the AutoRefresh flag cleared, the auth
block skips the lifecycle manager and, when the gate passes, attaches the
bearer header built from the current access token. -/
theorem authStage_true_noRefresh_ok (c : Client) (env : Env)
    (h : c.autoRefresh = false) (ha : assertAuth c = .ok ()) :
    authStage handleAutoRefresh c env true =
      (.ok (some ("Bearer " ++ c.accessToken)), c,
        [.attachAuthHeader ("Bearer " ++ c.accessToken)]) := by
  unfold authStage
  rw [h]
  simp only [Bool.false_eq_true, reduceIte]
  rw [ha]
  simp

/-- handleAutoRefresh marks its own invocation first and exactly once. -/
theorem handleAutoRefresh_trace (c : Client) (env : Env) :
    (handleAutoRefresh c env).2.2.head? = some .ensureFresh ∧
    countEnsureFresh (handleAutoRefresh c env).2.2 = 1 := by
  have h1 := handleAutoRefreshStep1_spec c env
  unfold handleAutoRefresh
  rcases hr : handleAutoRefreshStep1 c env with ⟨res, c', tr⟩
  rw [hr] at h1
  have h2 := handleAutoRefreshStep2_spec c' env
  rcases res with e' | u'
  · simp_all [countEnsureFresh, Event.isEnsureFresh]
  · rcases hs : handleAutoRefreshStep2 c' env with ⟨res₂, c'', tr₂⟩
    rw [hs] at h2
    simp_all [countEnsureFresh, Event.isEnsureFresh]

/-- When either API credential is empty, the whole lifecycle procedure
never invokes Authenticate. -/
theorem handleAutoRefresh_no_authcall (c : Client) (env : Env)
    (hk : c.apiKey = "" ∨ c.secretKey = "") :
    countAuthenticateCalls (handleAutoRefresh c env).2.2 = 0 := by
  have h1 := handleAutoRefreshStep1_spec c env
  unfold handleAutoRefresh
  rcases hr : handleAutoRefreshStep1 c env with ⟨res, c₁, tr₁⟩
  rw [hr] at h1
  rcases res with e' | u'
  · simp_all [countAuthenticateCalls, Event.isAuthenticateCall]
  · cases u'
    dsimp only
    have h2 := handleAutoRefreshStep2_spec c₁ env
    rcases hs : handleAutoRefreshStep2 c₁ env with ⟨res₂, c₂, tr₂⟩
    rw [hs] at h2
    have hk₁ : c₁.apiKey = "" ∨ c₁.secretKey = "" := by
      rw [h1.2.2.1, h1.2.2.2.1]
      exact hk
    simp_all [countAuthenticateCalls, Event.isAuthenticateCall, List.filter_append]

/-! ## Claims

One theorem per claim of the specification review, in claim order. -/

/-- C1 (code bug witness): the query encoder does NOT emit boolean fields
whose value is false. The zero-value skip (value.IsZero, line 80 of the
encoder) fires before the switch's bool case can run, so the bool case's
"Always add booleans" only ever sees true. Encoding the claim's struct
yields the empty query string, not "active=false"; flipping the boolean to
true shows the field is otherwise emitted; and a false boolean field is
dropped under every tag name. -/
theorem c1_false_boolean_is_dropped :
    StructToURLParams (some [⟨"name", .vStr ""⟩, ⟨"age", .vInt 0⟩,
        ⟨"active", .vBool false⟩]) = .ok "" ∧
    StructToURLParams (some [⟨"name", .vStr ""⟩, ⟨"age", .vInt 0⟩,
        ⟨"active", .vBool true⟩]) = .ok "active=true" ∧
    ∀ key : String, StructToURLParams (some [⟨key, .vBool false⟩]) = .ok "" := by
  refine ⟨rfl, rfl, fun key => ?_⟩
  by_cases h : key = "" ∨ key = "-" <;>
    simp [StructToURLParams, GoValue.IsZero, h, valuesEncode, sortStrings]

/-- A token whose expiry (Unix second 0) is long past. -/
def c2Jwt : JWT := ⟨"access", 0, "", 0, [], 0⟩

/-- A client holding both tokens but no API credentials. -/
def c2Client : Client := ⟨"https://api.bitpin.ir", "A", "R", "", "", true⟩

/-- An environment in which both tokens decode to the expired c2Jwt and the
network answers every request with 200 and a fresh access token. -/
def c2Env : Env :=
  { decodeJWT := fun s => if s = "A" ∨ s = "R" then .ok c2Jwt else .error "bad token"
    now := 100
    dispatch := fun _ => .ok ⟨200, .ok ⟨"", some (.obj [("access", .str "NEW")])⟩⟩ }

/-- C2 counterexample: with both tokens present and expired and no API
credentials, handleAutoRefresh does reach the missing-credentials error,
but only after issuing a network call (the refresh of the expired access
token), contradicting the claim's "no network call is issued before that
failure". -/
theorem c2_counterexample :
    c2Client.accessToken ≠ "" ∧ c2Client.refreshToken ≠ "" ∧
    c2Env.decodeJWT c2Client.accessToken = .ok c2Jwt ∧
    c2Env.decodeJWT c2Client.refreshToken = .ok c2Jwt ∧
    c2Jwt.IsExpired c2Env.now = true ∧
    c2Client.apiKey = "" ∧
    (handleAutoRefresh c2Client c2Env).1 = .error missingCredentialsError ∧
    countHttpCalls (handleAutoRefresh c2Client c2Env).2.2 = 1 := by
  exact ⟨by decide, by decide, rfl, rfl, rfl, rfl, rfl, rfl⟩

/-- C2 amended: with both tokens present and expired and an API credential
missing, handleAutoRefresh issues exactly one network call (the refresh of
the expired access token) and then fails: with the missing-credentials
error when that refresh call succeeded, or with the refresh call's own
error otherwise. -/
theorem c2_expired_tokens_missing_credentials
    (c : Client) (env : Env) (jA jR : JWT)
    (hA : c.accessToken ≠ "") (hR : c.refreshToken ≠ "")
    (hdA : env.decodeJWT c.accessToken = .ok jA)
    (hdR : env.decodeJWT c.refreshToken = .ok jR)
    (heA : jA.IsExpired env.now = true)
    (heR : jR.IsExpired env.now = true)
    (hk : c.apiKey = "" ∨ c.secretKey = "") :
    countHttpCalls (handleAutoRefresh c env).2.2 = 1 ∧
    ((RefreshAccessToken c env).1 = .ok () →
      (handleAutoRefresh c env).1 = .error missingCredentialsError) ∧
    (∀ e, (RefreshAccessToken c env).1 = .error e →
      (handleAutoRefresh c env).1 = .error e) := by
  have hstep1 : handleAutoRefreshStep1 c env = RefreshAccessToken c env := by
    simp [handleAutoRefreshStep1, hA, hdA, heA]
  have hspec := RefreshAccessToken_spec c env
  unfold handleAutoRefresh
  rw [hstep1]
  rcases hr : RefreshAccessToken c env with ⟨res, c₁, tr₁⟩
  rw [hr] at hspec
  rcases res with e' | u'
  · refine ⟨?_, ?_, ?_⟩
    · simpa [countHttpCalls, Event.isHttpCall] using hspec.2.2.2.2.2.2.2
    · intro h; simp at h
    · intro e h
      simp at h
      simp [h]
  · cases u'
    have hstep2 : handleAutoRefreshStep2 c₁ env
        = (.error missingCredentialsError, c₁, []) := by
      unfold handleAutoRefreshStep2
      rw [hspec.2.1]
      simp only [hR, if_true, ne_eq, not_false_iff]
      rw [hdR]
      simp only [heR, if_true]
      rw [hspec.2.2.1, hspec.2.2.2.1]
      rcases hk with hk | hk <;> simp [hk]
    dsimp only
    rw [hstep2]
    refine ⟨?_, fun _ => rfl, ?_⟩
    · simpa [countHttpCalls, Event.isHttpCall] using hspec.2.2.2.2.2.2.2
    · intro e h; simp at h

/-- C2 witness for the amended statement, at the concrete expired state. -/
theorem c2_expired_tokens_missing_credentials_witness :
    countHttpCalls (handleAutoRefresh c2Client c2Env).2.2 = 1 :=
  (c2_expired_tokens_missing_credentials c2Client c2Env c2Jwt c2Jwt
    (by decide) (by decide) rfl rfl rfl rfl (Or.inl rfl)).1

/-- C3: the error normalizer is total (it returns an APIError carrying the
given status code for every status code and body), and on the four claimed
body shapes it produces exactly the claimed details: a field-to-list body
is kept as is; a field-to-string body is wrapped into singleton lists; a
detail/code body yields details with both the detail and code keys; a
non-JSON body yields the raw fallback entry. -/
theorem c3_error_normalizer_shapes :
    (∀ (sc : Int) (b : Body), (parseErrorResponse sc b).statusCode = sc) ∧
    (parseErrorResponse 400
        ⟨"\x7b\"field\":[\"err1\",\"err2\"]\x7d",
          some (.obj [("field", .arr [.str "err1", .str "err2"])])⟩).details
      = [("field", ["err1", "err2"])] ∧
    (parseErrorResponse 400
        ⟨"\x7b\"field\":\"err\"\x7d", some (.obj [("field", .str "err")])⟩).details
      = [("field", ["err"])] ∧
    ((parseErrorResponse 400
        ⟨"\x7b\"detail\":\"x\",\"code\":\"Y\"\x7d",
          some (.obj [("detail", .str "x"), ("code", .str "Y")])⟩).details.lookup "detail"
      = some ["x"] ∧
     (parseErrorResponse 400
        ⟨"\x7b\"detail\":\"x\",\"code\":\"Y\"\x7d",
          some (.obj [("detail", .str "x"), ("code", .str "Y")])⟩).details.lookup "code"
      = some ["Y"]) ∧
    (parseErrorResponse 404 ⟨"oops", none⟩).details = [("raw", ["oops"])] := by
  refine ⟨fun sc b => ?_, rfl, rfl, ⟨rfl, rfl⟩, rfl⟩
  unfold parseErrorResponse
  repeat' split
  all_goals rfl

/-- C4: whenever preparation and the auth stage succeed and the dispatched
response carries a status code outside [200,300), the pipeline returns the
normalized API error built from that status code and body, nothing is
written into the caller's result, and the trace ends at the dispatch: no
decode of the response into the caller's target is attempted. -/
theorem c4_pipeline_short_circuit
    (c : Client) (env : Env) (method url : String) (auth : Bool)
    (body : Option GoBody) (result : Option (Body → Except String Decoded))
    (p : String × String) (hdr : Option String) (c' : Client) (tr : List Event)
    (resp : HttpResp) (b : Body)
    (hp : prepare method url body = .ok p)
    (ha : authStage handleAutoRefresh c env auth = (.ok hdr, c', tr))
    (hd : env.dispatch (mkReq method p.1 hdr p.2) = .ok resp)
    (hb : resp.bodyResult = .ok b)
    (hs : resp.statusCode < 200 ∨ 300 ≤ resp.statusCode) :
    (Request c env method url auth body result).1
      = .error (.api (parseErrorResponse resp.statusCode b)) ∧
    (Request c env method url auth body result).2.1 = none ∧
    (Request c env method url auth body result).2.2.2
      = tr ++ [.httpCall (mkReq method p.1 hdr p.2)] := by
  obtain ⟨pu, pb⟩ := p
  dsimp only at hd
  unfold Request requestWith
  rw [hp]
  dsimp only
  rw [ha]
  dsimp only
  rw [hd]
  dsimp only
  rw [hb]
  dsimp only
  rw [if_pos hs]
  exact ⟨rfl, rfl, rfl⟩

/-- The 404 body of the spec's short-circuit example. -/
def c4Body : Body :=
  ⟨"\x7b\"detail\":\"not found\"\x7d", some (.obj [("detail", .str "not found")])⟩

/-- An environment answering every request with HTTP 404 and that body. -/
def c4Env : Env :=
  { decodeJWT := fun _ => .error "unused"
    now := 0
    dispatch := fun _ => .ok ⟨404, .ok c4Body⟩ }

/-- An unauthenticated client for the short-circuit example. -/
def c4Client : Client := ⟨"https://api.bitpin.ir", "", "", "", "", false⟩

/-- C4 witness: a dispatched call receiving HTTP 404 with body
detail: not found returns the normalized 404 error and never decodes into
the caller's target. -/
theorem c4_pipeline_short_circuit_witness :
    (Request c4Client c4Env "GET" "u" false none (some unmarshalAuthResponse)).1
      = .error (.api (parseErrorResponse 404 c4Body)) ∧
    (parseErrorResponse 404 c4Body).statusCode = 404 ∧
    (parseErrorResponse 404 c4Body).details = [("detail", ["not found"])] ∧
    (Request c4Client c4Env "GET" "u" false none (some unmarshalAuthResponse)).2.1
      = none ∧
    (Request c4Client c4Env "GET" "u" false none (some unmarshalAuthResponse)).2.2.2
      = [.httpCall (mkReq "GET" "u" none "")] := by
  have h := c4_pipeline_short_circuit c4Client c4Env "GET" "u" false none
    (some unmarshalAuthResponse) ("u", "") none c4Client [] ⟨404, .ok c4Body⟩ c4Body
    rfl rfl rfl rfl (by norm_num)
  exact ⟨h.1, rfl, rfl, h.2.1, by simpa using h.2.2⟩

/-- A client with both tokens set but AutoRefresh disabled. -/
def c5Client : Client := ⟨"https://api.bitpin.ir", "A", "R", "", "", false⟩

/-- An environment answering every request with an empty 200. -/
def c5Env : Env :=
  { decodeJWT := fun _ => .error "unused"
    now := 0
    dispatch := fun _ => .ok ⟨200, .ok ⟨"", none⟩⟩ }

/-- C5 counterexample: an authenticated pipeline call on a client whose
AutoRefresh flag is false attaches the Authorization header without ever
invoking ensureFresh, so ensureFresh is not invoked before every
authenticated call. -/
theorem c5_counterexample :
    countEnsureFresh (Request c5Client c5Env "GET" "u" true none none).2.2.2 = 0 ∧
    (Request c5Client c5Env "GET" "u" true none none).2.2.2.filter Event.isAttachAuth
      = [.attachAuthHeader "Bearer A"] ∧
    (Request c5Client c5Env "GET" "u" true none none).1 = .ok () := by
  exact ⟨rfl, rfl, rfl⟩

/-- C5 amended: on an authenticated pipeline call, ensureFresh is invoked —
first, hence before the Authorization header is attached — exactly when the
client's AutoRefresh flag is set (with the flag cleared it is never
invoked); and ensureFresh is invoked exactly once at construction,
regardless of which options were supplied. -/
theorem c5_ensure_fresh_ordering :
    (∀ (c : Client) (env : Env) (m u : String) (b : Option GoBody)
        (r : Option (Body → Except String Decoded)) (p : String × String),
      c.autoRefresh = true → prepare m u b = .ok p →
      (Request c env m u true b r).2.2.2.head? = some .ensureFresh) ∧
    (∀ (c : Client) (env : Env) (m u : String) (b : Option GoBody)
        (r : Option (Body → Except String Decoded)),
      c.autoRefresh = false →
      countEnsureFresh (Request c env m u true b r).2.2.2 = 0) ∧
    (∀ (opts : ClientOptions) (env : Env),
      countEnsureFresh (NewClient opts env).2 = 1) := by
  refine ⟨fun c env m u b r p hAR hp => ?_, fun c env m u b r hAR => ?_,
    fun opts env => ?_⟩
  · obtain ⟨hd, _⟩ := handleAutoRefresh_trace c env
    rcases hh : handleAutoRefresh c env with ⟨res, c₁, tr₁⟩
    rw [hh] at hd
    rcases tr₁ with _ | ⟨e₀, rest⟩
    · simp at hd
    · obtain rfl : e₀ = .ensureFresh := by simpa using hd
      obtain ⟨pu, pb⟩ := p
      unfold Request requestWith authStage
      rw [hp]
      dsimp only
      simp only [hAR, if_true]
      rw [hh]
      rcases res with e₁ | u₁
      · simp
      · cases u₁
        dsimp only
        rcases hassert : assertAuth c₁ with e₂ | u₂
        · simp
        · cases u₂
          dsimp only
          repeat' split
          all_goals simp
  · rcases hp' : prepare m u b with e₀ | ⟨pu, pb⟩
    · unfold Request requestWith
      rw [hp']
      simp [countEnsureFresh]
    · rcases hassert : assertAuth c with e₂ | u₂
      · have hAS := authStage_true_noRefresh_err c env e₂ hAR hassert
        unfold Request requestWith
        rw [hp']
        dsimp only
        rw [hAS]
        simp [countEnsureFresh]
      · cases u₂
        have hAS := authStage_true_noRefresh_ok c env hAR hassert
        unfold Request requestWith
        rw [hp']
        dsimp only
        rw [hAS]
        dsimp only
        repeat' split
        all_goals simp [countEnsureFresh, Event.isEnsureFresh]
  · obtain ⟨_, hcount⟩ := handleAutoRefresh_trace (clientOfOptions opts) env
    unfold NewClient
    rcases hh : handleAutoRefresh (clientOfOptions opts) env with ⟨res, c₁, tr⟩
    rw [hh] at hcount
    rcases res with e' | u'
    · simpa using hcount
    · cases u'
      dsimp only
      have hAu := Authenticate_spec c₁ env opts.apiKey opts.secretKey
      by_cases hkeys : opts.apiKey ≠ "" ∧ opts.secretKey ≠ ""
      · rw [if_pos hkeys]
        rcases hau : Authenticate c₁ env opts.apiKey opts.secretKey with ⟨res₂, c₂, tr₂⟩
        rw [hau] at hAu
        rcases res₂ with e₂ | a₂ <;>
          simp_all [countEnsureFresh, List.filter_append]
      · rw [if_neg hkeys]
        simpa using hcount

/-- A client with AutoRefresh set and an unexpired decodable token pair. -/
def c5wClient : Client := ⟨"https://api.bitpin.ir", "A", "R", "", "", true⟩

/-- An environment whose tokens decode as far from expiry. -/
def c5wEnv : Env :=
  { decodeJWT := fun _ => .ok ⟨"access", 1000, "", 0, [], 0⟩
    now := 0
    dispatch := fun _ => .ok ⟨200, .ok ⟨"", none⟩⟩ }

/-- C5 witness: the amended ordering applied at a concrete authenticated
call with AutoRefresh set. -/
theorem c5_ensure_fresh_ordering_witness :
    c5wClient.autoRefresh = true ∧ prepare "GET" "u" none = .ok ("u", "") ∧
    (Request c5wClient c5wEnv "GET" "u" true none none).2.2.2.head?
      = some .ensureFresh :=
  ⟨rfl, rfl,
    c5_ensure_fresh_ordering.1 c5wClient c5wEnv "GET" "u" none none ("u", "") rfl rfl⟩

/-- C6: a successful RefreshAccessToken overwrites only the access token:
the refresh token, the API key, the secret key (and the base URL and the
AutoRefresh flag) are unchanged. -/
theorem c6_refresh_overwrites_only_access_token (c : Client) (env : Env)
    (h : (RefreshAccessToken c env).1 = .ok ()) :
    (RefreshAccessToken c env).2.1.refreshToken = c.refreshToken ∧
    (RefreshAccessToken c env).2.1.apiKey = c.apiKey ∧
    (RefreshAccessToken c env).2.1.secretKey = c.secretKey ∧
    (RefreshAccessToken c env).2.1.baseUrl = c.baseUrl ∧
    (RefreshAccessToken c env).2.1.autoRefresh = c.autoRefresh := by
  have hs := RefreshAccessToken_spec c env
  exact ⟨hs.2.1, hs.2.2.1, hs.2.2.2.1, hs.1, hs.2.2.2.2.1⟩

/-- A fully-credentialed client for the refresh example. -/
def c6Client : Client := ⟨"https://api.bitpin.ir", "A", "R", "k", "s", true⟩

/-- An environment whose refresh endpoint answers 200 with a new access
token. -/
def c6Env : Env :=
  { decodeJWT := fun _ => .error "unused"
    now := 0
    dispatch := fun _ => .ok ⟨200, .ok ⟨"", some (.obj [("access", .str "newtok")])⟩⟩ }

/-- C6 witness: a concrete successful refresh replaces the access token
with the response's and leaves every other credential in place. -/
theorem c6_refresh_overwrites_only_access_token_witness :
    (RefreshAccessToken c6Client c6Env).1 = .ok () ∧
    (RefreshAccessToken c6Client c6Env).2.1.accessToken = "newtok" ∧
    (RefreshAccessToken c6Client c6Env).2.1.refreshToken = "R" ∧
    (RefreshAccessToken c6Client c6Env).2.1.apiKey = "k" ∧
    (RefreshAccessToken c6Client c6Env).2.1.secretKey = "s" := by
  have h := c6_refresh_overwrites_only_access_token c6Client c6Env rfl
  exact ⟨rfl, rfl, h.1, h.2.1, h.2.2.1⟩

/-- C7: IsExpired holds exactly when the expiry is strictly before now, and
IsExpiredIn t holds exactly when the expiry is strictly before now + t; for
a token expiring at now + 3600, a 7200-second window reports true and a
1800-second window reports false. -/
theorem c7_token_expiry_predicates :
    (∀ (j : JWT) (now : Int), j.IsExpired now = true ↔ j.exp < now) ∧
    (∀ (j : JWT) (now t : Int), j.IsExpiredIn now t = true ↔ j.exp < now + t) ∧
    (∀ (tt jti : String) (uid : Int) (ip : List String) (acid now : Int),
      (JWT.mk tt (now + 3600) jti uid ip acid).IsExpiredIn now 7200 = true ∧
      (JWT.mk tt (now + 3600) jti uid ip acid).IsExpiredIn now 1800 = false) := by
  refine ⟨fun j now => ?_, fun j now t => ?_, fun tt jti uid ip acid now => ⟨?_, ?_⟩⟩ <;>
    simp [JWT.IsExpired, JWT.IsExpiredIn]

/-- C8: the authentication gate assertAuth fails with the access-token
error when the access token is empty, with the different refresh-token
error when the access token is present but the refresh token is empty, and
succeeds exactly when both are non-empty; the two errors are distinct. -/
theorem c8_assert_auth_gate :
    (∀ c : Client, c.accessToken = "" →
      assertAuth c = .error (.go "access token is empty" none)) ∧
    (∀ c : Client, c.accessToken ≠ "" → c.refreshToken = "" →
      assertAuth c = .error (.go "refresh token is empty" none)) ∧
    (∀ c : Client, assertAuth c = .ok () ↔
      (c.accessToken ≠ "" ∧ c.refreshToken ≠ "")) ∧
    BErr.go "access token is empty" none ≠ BErr.go "refresh token is empty" none := by
  refine ⟨fun c h => ?_, fun c h₁ h₂ => ?_, fun c => ?_, ?_⟩
  · simp [assertAuth, h]
  · simp [assertAuth, h₁, h₂]
  · constructor
    · intro h
      by_cases h₁ : c.accessToken = "" <;> by_cases h₂ : c.refreshToken = "" <;>
        simp_all [assertAuth]
    · intro ⟨h₁, h₂⟩
      simp [assertAuth, h₁, h₂]
  · intro h
    have := BErr.go.inj h
    simp at this

/-- C8 witness: the gate evaluated on concrete clients via the theorem. -/
theorem c8_assert_auth_gate_witness :
    assertAuth ⟨"u", "", "r", "", "", false⟩
      = .error (.go "access token is empty" none) ∧
    assertAuth ⟨"u", "a", "", "", "", false⟩
      = .error (.go "refresh token is empty" none) := by
  exact ⟨c8_assert_auth_gate.1 ⟨"u", "", "r", "", "", false⟩ rfl,
    c8_assert_auth_gate.2.1 ⟨"u", "a", "", "", "", false⟩ (by decide) rfl⟩

/-- Options carrying both API credentials and an undecodable access token. -/
def c9Opts : ClientOptions := ⟨"", "BAD", "", "k", "s", false, false⟩

/-- An environment in which every token fails to decode and there is no
network. -/
def c9Env : Env :=
  { decodeJWT := fun _ => .error "failed to parse token"
    now := 0
    dispatch := fun _ => .error "no network" }

/-- C9 counterexample: both credentials are non-empty, yet NewClient never
attempts authentication — the construction-time auto-refresh step fails
first on the undecodable supplied access token (no Authenticate invocation,
no network call at all), refuting "attempts full authentication exactly
when both ApiKey and SecretKey are non-empty". -/
theorem c9_counterexample :
    c9Opts.apiKey ≠ "" ∧ c9Opts.secretKey ≠ "" ∧
    (NewClient c9Opts c9Env).1 = .error (.plain "failed to parse token") ∧
    countAuthenticateCalls (NewClient c9Opts c9Env).2 = 0 ∧
    countHttpCalls (NewClient c9Opts c9Env).2 = 0 := by
  exact ⟨by decide, by decide, rfl, rfl, rfl⟩

/-- C9 amended: the AutoAuth option is never read (NewClient's result is
invariant under flipping it); provided the construction-time auto-refresh
step succeeded, NewClient attempts full authentication when both
credentials are non-empty; it never attempts authentication when either is
empty; and a successful Authenticate overwrites both tokens with the
response's, regardless of any caller-supplied values. -/
theorem c9_autoauth_unread_and_overwrite :
    (∀ (opts : ClientOptions) (env : Env) (flag : Bool),
      NewClient { opts with autoAuth := flag } env = NewClient opts env) ∧
    (∀ (opts : ClientOptions) (env : Env) (c₁ : Client) (tr : List Event),
      handleAutoRefresh (clientOfOptions opts) env = (.ok (), c₁, tr) →
      opts.apiKey ≠ "" → opts.secretKey ≠ "" →
      1 ≤ countAuthenticateCalls (NewClient opts env).2) ∧
    (∀ (opts : ClientOptions) (env : Env),
      opts.apiKey = "" ∨ opts.secretKey = "" →
      countAuthenticateCalls (NewClient opts env).2 = 0) ∧
    (∀ (c : Client) (env : Env) (k s : String) (a : AuthenticationResponse)
        (c₂ : Client) (tr₂ : List Event),
      Authenticate c env k s = (.ok a, c₂, tr₂) →
      c₂.accessToken = a.access ∧ c₂.refreshToken = a.refresh) := by
  refine ⟨fun opts env flag => rfl, fun opts env c₁ tr hh hk hs => ?_,
    fun opts env hk => ?_, fun c env k s a c₂ tr₂ h => ?_⟩
  · unfold NewClient
    rw [hh]
    dsimp only
    rw [if_pos ⟨hk, hs⟩]
    have hAu := Authenticate_spec c₁ env opts.apiKey opts.secretKey
    rcases hau : Authenticate c₁ env opts.apiKey opts.secretKey with ⟨res₂, c₂', tr₂'⟩
    rw [hau] at hAu
    rcases res₂ with e₂ | a₂ <;>
      simp_all [countAuthenticateCalls, List.filter_append]
  · have hno := handleAutoRefresh_no_authcall (clientOfOptions opts) env hk
    unfold NewClient
    rcases hh : handleAutoRefresh (clientOfOptions opts) env with ⟨res, c₁, tr⟩
    rw [hh] at hno
    rcases res with e' | u'
    · simpa using hno
    · cases u'
      dsimp only
      have hneg : ¬(opts.apiKey ≠ "" ∧ opts.secretKey ≠ "") := by
        rcases hk with hk | hk <;> simp [hk]
      rw [if_neg hneg]
      simpa using hno
  · unfold Authenticate at h
    by_cases hks : k = "" ∨ s = ""
    · rw [if_pos hks] at h
      simp at h
    · rw [if_neg hks] at h
      rcases hr : requestWith noEnsure c env "POST"
          (createApiURI c "/usr/authenticate/" Version) false
          (some (mapBody [("api_key", k), ("secret_key", s)]))
          (some unmarshalAuthResponse) with ⟨res, written, c', tr⟩
      rw [hr] at h
      rcases res with e' | u'
      · simp at h
      · cases u'
        dsimp only at h
        simp only [Prod.mk.injEq, Except.ok.injEq] at h
        obtain ⟨ha', hc, _⟩ := h
        subst hc
        constructor <;> simp [← ha']

/-- Options with both credentials and no supplied tokens. -/
def c9wOpts : ClientOptions := ⟨"", "", "", "k", "s", false, false⟩

/-- An environment whose authenticate endpoint answers 200 with a token
pair. -/
def c9wEnv : Env :=
  { decodeJWT := fun _ => .error "unused"
    now := 0
    dispatch := fun _ =>
      .ok ⟨200, .ok ⟨"", some (.obj [("refresh", .str "RR"), ("access", .str "AA")])⟩⟩ }

/-- C9 witness: with both credentials present and a clean refresh step,
construction does attempt authentication. -/
theorem c9_autoauth_unread_and_overwrite_witness :
    handleAutoRefresh (clientOfOptions c9wOpts) c9wEnv
      = (.ok (), clientOfOptions c9wOpts, [.ensureFresh]) ∧
    1 ≤ countAuthenticateCalls (NewClient c9wOpts c9wEnv).2 :=
  ⟨rfl, c9_autoauth_unread_and_overwrite.2.1 c9wOpts c9wEnv
    (clientOfOptions c9wOpts) [.ensureFresh] rfl (by decide) (by decide)⟩

/-- C10: bodies "null" and an empty JSON object both satisfy the
normalizer's first parse (map from field to list of strings), yielding
empty details with no raw entry; and the raw fallback is never taken when
any of the three parses succeeds: whichever parse succeeds first determines
the details exactly. -/
theorem c10_normalizer_null_and_fallback :
    (∀ sc : Int, (parseErrorResponse sc ⟨"null", some .null⟩).details = []) ∧
    (∀ sc : Int, (parseErrorResponse sc ⟨"\x7b\x7d", some (.obj [])⟩).details = []) ∧
    (∀ (sc : Int) (b : Body) (d : List (String × List String)),
      b.json.bind unmarshalMapStringListString = some d →
      (parseErrorResponse sc b).details = d) ∧
    (∀ (sc : Int) (b : Body) (m : List (String × String)),
      b.json.bind unmarshalMapStringListString = none →
      b.json.bind unmarshalMapStringString = some m →
      (parseErrorResponse sc b).details = m.foldl (fun acc p => upsert acc p.1 [p.2]) []) ∧
    (∀ (sc : Int) (b : Body) (r : ErrResponseShape),
      b.json.bind unmarshalMapStringListString = none →
      b.json.bind unmarshalMapStringString = none →
      b.json.bind unmarshalErrResponseShape = some r →
      (parseErrorResponse sc b).details = errResponseDetails r) := by
  refine ⟨fun sc => rfl, fun sc => rfl, fun sc b d h => ?_,
    fun sc b m h₁ h₂ => ?_, fun sc b r h₁ h₂ h₃ => ?_⟩ <;>
    simp [parseErrorResponse, *]

/-- C10 witness: the first-parse case applied at a concrete body. -/
theorem c10_normalizer_null_and_fallback_witness :
    (parseErrorResponse 422 ⟨"x", some (.obj [("a", .arr [.str "m"])])⟩).details
      = [("a", ["m"])] :=
  c10_normalizer_null_and_fallback.2.2.1 422
    ⟨"x", some (.obj [("a", .arr [.str "m"])])⟩ [("a", ["m"])] rfl

end Bitpin
